import Mathlib

/-!
Shallow embedding of `src/libpurecoollink/dyson.py` (class `DysonAccount`).

Modelling choices:
* An HTTP response is its status code plus its parsed JSON body; JSON bodies
  relevant to login are flat string-to-string objects, modelled as association
  lists (Python `dict`s with unique keys).
* Python exceptions are values of `PyExn`; a method that can raise returns
  `Except PyExn _` together with the post-state and the list of observable
  events (HTTP requests issued, the interactive OTP prompt).
* `login` receives the three network responses and the OTP the user types as
  parameters; it emits a request event at each point the source calls
  `requests.post`.
* In the source, line 115 reads `login.status_code` where only the local
  variable `login_response` is bound: the bare name `login` is neither a local
  nor a module-level global nor a builtin, so evaluating it raises
  NameError (name login is not defined) before the status is examined, and
  lines 116-118 are unreachable.  The embedding reproduces this: the verify
  response (`resp3`) is received but never inspected.
-/

namespace Purecoollink

/-- Python exceptions that the modelled code can raise. -/
inductive PyExn where
  | nameError (name : String)
  | keyError (key : String)
  | dysonNotLogged
  deriving DecidableEq, Repr

/-- Lookup in a Python `dict` modelled as an association list
(`d[k]` yields the value, `KeyError` when absent is handled at call sites). -/
def jsonGet : List (String × String) → String → Option String
  | [], _ => none
  | p :: t, k => if p.1 = k then some p.2 else jsonGet t k

/-- Python `dict` assignment `d[k] = v`: replace the (unique) binding of `k`
in place, or append a new binding. -/
def headersSet : List (String × String) → String → String → List (String × String)
  | [], k, v => [(k, v)]
  | p :: t, k, v => if p.1 = k then (k, v) :: t else p :: headersSet t k v

/-- A parsed HTTP response: status code and JSON body. -/
structure Response where
  status : Nat
  json : List (String × String)
  deriving DecidableEq, Repr

/-- The mutable state of a `DysonAccount` instance
(fields `_email`, `_password`, `_country`, `_logged`, `_headers`). -/
structure DysonAccount where
  email : String
  password : String
  country : String
  logged : Bool
  headers : List (String × String)
  deriving DecidableEq, Repr

def DYSON_API_URL : String := "appapi.cp.dyson.com"

/-- `DysonAccount.__init__`. -/
def DysonAccount.init (email password country : String) : DysonAccount where
  email := email
  password := password
  country := country
  logged := false
  headers :=
    [("Content-Type", "application/json"),
     ("User-Agent",
      "Dalvik/2.1.0 (Linux; U; Android 12; sdk_gphone64_x86_64 Build/S2B2.211203.006)")]

/-- `DysonAccount.use_authentication_token`. -/
def DysonAccount.use_authentication_token
    (a : DysonAccount) (authentication_token : String) : DysonAccount :=
  { a with
    headers := headersSet a.headers "Authorization" ("Bearer " ++ authentication_token)
    logged := true }

inductive Method where
  | post
  | get
  deriving DecidableEq, Repr

/-- An HTTP request as issued by the code: method, full URL, JSON body. -/
structure Request where
  method : Method
  url : String
  body : List (String × String)
  deriving DecidableEq, Repr

/-- Observable events of a method call: an HTTP request being issued, or the
interactive `input(...)` OTP prompt being shown. -/
inductive Event where
  | request (r : Request)
  | promptOTP (prompt : String)
  deriving DecidableEq, Repr

/-- URL of login step 1 (source line 54). -/
def userstatusUrl (country : String) : String :=
  "https://" ++ DYSON_API_URL ++ "/v3/userregistration/email/userstatus?country=" ++ country

/-- URL of login step 2 (source line 81): the country code appears both as the
`country` parameter and inside the `culture=en-<country>` tag. -/
def authUrl (country : String) : String :=
  "https://" ++ DYSON_API_URL ++ "/v3/userregistration/email/auth?country=" ++ country
    ++ "&culture=en-" ++ country

/-- URL of login step 3 (source line 112). -/
def verifyUrl (country : String) : String :=
  "https://" ++ DYSON_API_URL ++ "/v3/userregistration/email/verify?country=" ++ country

/-- URL of the device manifest request (source line 127). -/
def manifestUrl : String :=
  "https://" ++ DYSON_API_URL ++ "/v1/provisioningservice/manifest"

/-- Outcome of a call to `login`: the returned value or raised exception, the
post-state, and the events that occurred. -/
structure LoginOutcome where
  result : Except PyExn Bool
  state : DysonAccount
  events : List Event
  deriving Repr

/-- `DysonAccount.login` (source lines 44-121), as a function of the three
network responses and the OTP string the user types. -/
def DysonAccount.login (a : DysonAccount) (resp1 resp2 resp3 : Response)
    (otp : String) : LoginOutcome :=
  let request_body := [("email", a.email)]
  let ev1 := Event.request ⟨Method.post, userstatusUrl a.country, request_body⟩
  if resp1.status = 200 then
    match jsonGet resp1.json "accountStatus" with
    | none =>
      -- line 62: `json_response['accountStatus']` raises KeyError when absent
      ⟨Except.error (PyExn.keyError "accountStatus"), a, [ev1]⟩
    | some accountStatus =>
      if accountStatus ≠ "ACTIVE" then
        ⟨Except.ok false, { a with logged := false }, [ev1]⟩
      else
        match jsonGet resp1.json "authenticationMethod" with
        | none =>
          -- line 66: `json_response['authenticationMethod']` raises KeyError
          ⟨Except.error (PyExn.keyError "authenticationMethod"), a, [ev1]⟩
        | some authenticationMethod =>
          if authenticationMethod ≠ "EMAIL_PWD_2FA" then
            ⟨Except.ok false, { a with logged := false }, [ev1]⟩
          else
            let ev2 := Event.request ⟨Method.post, authUrl a.country, request_body⟩
            if resp2.status = 200 then
              match jsonGet resp2.json "challengeId" with
              | none =>
                -- line 89 tests membership of challengeId in json_response,
                -- so a missing field returns False instead of raising
                ⟨Except.ok false, { a with logged := false }, [ev1, ev2]⟩
              | some challenge_id =>
                let evPrompt := Event.promptOTP
                  ("Input the code sent to you by Dyson at " ++ a.email ++ ":       ")
                let request_body2 :=
                  [("email", a.email), ("password", a.password),
                   ("challengeId", challenge_id), ("otpCode", otp)]
                let ev3 := Event.request ⟨Method.post, verifyUrl a.country, request_body2⟩
                -- line 115 dereferences the unbound name `login`; NameError is
                -- raised before resp3 is examined, leaving the state unchanged
                ⟨Except.error (PyExn.nameError "login"), a, [ev1, ev2, evPrompt, ev3]⟩
            else
              ⟨Except.ok false, { a with logged := false }, [ev1, ev2]⟩
  else
    ⟨Except.ok false, { a with logged := false }, [ev1]⟩

/-- Classified device handles produced by `devices` over an abstract record
type `D` (the constructors stand for `Dyson360Eye`, `DysonPureHotCoolLink`,
`DysonPureCoolLink`). -/
inductive DysonDevice (D : Type) where
  | eye360 (d : D)
  | hotCool (d : D)
  | coolLink (d : D)
  deriving DecidableEq, Repr

/-- The classification of one manifest record (loop body of source lines
131-136): the vacuum predicate `is_360_eye_device` is tested first, the
heating predicate second, the generic cool-link class is the default. -/
def classifyDevice {D : Type} (is_360_eye_device is_heating_device : D → Bool)
    (device : D) : DysonDevice D :=
  if is_360_eye_device device then DysonDevice.eye360 device
  else if is_heating_device device then DysonDevice.hotCool device
  else DysonDevice.coolLink device

/-- Outcome of a call to `devices`. -/
structure DevicesOutcome (D : Type) where
  result : Except PyExn (List (DysonDevice D))
  state : DysonAccount
  events : List Event

/-- `DysonAccount.devices` (source lines 123-142).  The predicates
`is_360_eye_device` / `is_heating_device` live in `utils.py` and are abstract
here; the manifest response body is the list of records the server returns. -/
def DysonAccount.devices {D : Type} (is_360_eye_device is_heating_device : D → Bool)
    (a : DysonAccount) (manifest : List D) : DevicesOutcome D :=
  if a.logged then
    ⟨Except.ok (manifest.map (classifyDevice is_360_eye_device is_heating_device)),
     a, [Event.request ⟨Method.get, manifestUrl, []⟩]⟩
  else
    ⟨Except.error PyExn.dysonNotLogged, a, []⟩

/-- Session states reachable from construction by any sequence of
`use_authentication_token`, `login` and `devices` calls. -/
inductive Reachable : DysonAccount → Prop where
  | init (email password country : String) :
      Reachable (DysonAccount.init email password country)
  | useToken {a : DysonAccount} (t : String) :
      Reachable a → Reachable (a.use_authentication_token t)
  | loginStep {a : DysonAccount} (r1 r2 r3 : Response) (otp : String) :
      Reachable a → Reachable (a.login r1 r2 r3 otp).state
  | devicesStep {a : DysonAccount} {D : Type} (ie ihd : D → Bool) (m : List D) :
      Reachable a → Reachable (DysonAccount.devices ie ihd a m).state

/-- Whether an `Authorization` entry is present in the session headers. -/
def hasAuthHeader (a : DysonAccount) : Bool :=
  (jsonGet a.headers "Authorization").isSome

/-! ## Helper lemmas -/

/-- After `headersSet h k v`, looking up `k` yields `v`. -/
lemma jsonGet_headersSet_same (k v : String) :
    ∀ h : List (String × String), jsonGet (headersSet h k v) k = some v := by
  intro h
  induction h with
  | nil => simp [headersSet, jsonGet]
  | cons p t iht =>
      by_cases hp : p.1 = k
      · simp [headersSet, hp, jsonGet]
      · simp [headersSet, hp, jsonGet, iht]

/-- `login` either leaves the state untouched (the paths that raise) or merely
resets the `logged` flag to `false`; in particular it never changes the
headers and never sets `logged` to `true` (line 118 being unreachable). -/
lemma login_state_cases (a : DysonAccount) (r1 r2 r3 : Response) (otp : String) :
    (a.login r1 r2 r3 otp).state = a ∨
      (a.login r1 r2 r3 otp).state = { a with logged := false } := by
  unfold DysonAccount.login
  repeat' split
  all_goals first | (left; rfl) | (right; rfl)

/-- `devices` leaves the account state unchanged on both branches. -/
lemma devices_state_eq {D : Type} (ie ihd : D → Bool) (a : DysonAccount) (m : List D) :
    (DysonAccount.devices ie ihd a m).state = a := by
  unfold DysonAccount.devices
  split <;> rfl

/-! ## Sample inputs -/

/-- A freshly constructed account. -/
def sampleAccount : DysonAccount :=
  DysonAccount.init "user@example.com" "hunter2" "US"

/-- A step-1 response with the expected fields. -/
def okResp1 : Response :=
  ⟨200, [("accountStatus", "ACTIVE"), ("authenticationMethod", "EMAIL_PWD_2FA")]⟩

/-- A step-2 response carrying a challenge id. -/
def okResp2 : Response :=
  ⟨200, [("challengeId", "e6ff5f3f-204c-4c76-8546-7a536761ebdd")]⟩

/-! ## Claims -/

/-- C1: the claim fails at step 3.  With steps 1 and 2 succeeding and the
verify step answering 401, `login()` does not return `False`: line 115
dereferences the unbound name `login` (instead of `login_response`), so a
NameError escapes before the step-3 status is ever compared to 200. -/
theorem C1_step3_non200_raises :
    (sampleAccount.login okResp1 okResp2 ⟨401, []⟩ "123456").result
      = Except.error (PyExn.nameError "login") := rfl

/-- C2: the claim fails.  Even when all three steps answer 200 with the
expected fields, `login()` raises NameError at line 115: it never returns
`True`, never sets `logged`, and never installs the bearer token (the state
is returned unchanged, without an Authorization header). -/
theorem C2_success_path_raises :
    sampleAccount.login okResp1 okResp2 ⟨200, [("token", "tok-123")]⟩ "123456"
      = ⟨Except.error (PyExn.nameError "login"), sampleAccount,
         [Event.request ⟨Method.post, userstatusUrl "US", [("email", "user@example.com")]⟩,
          Event.request ⟨Method.post, authUrl "US", [("email", "user@example.com")]⟩,
          Event.promptOTP "Input the code sent to you by Dyson at user@example.com:       ",
          Event.request ⟨Method.post, verifyUrl "US",
            [("email", "user@example.com"), ("password", "hunter2"),
             ("challengeId", "e6ff5f3f-204c-4c76-8546-7a536761ebdd"),
             ("otpCode", "123456")]⟩]⟩ := rfl

/-- C3 counterexample: a step-1 response with status 200 and an empty JSON
body is not treated as a failed step: `login()` does not return `False`
(line 62 raises KeyError on the missing accountStatus field instead). -/
theorem C3_counterexample :
    ¬ ((sampleAccount.login ⟨200, []⟩ ⟨200, []⟩ ⟨200, []⟩ "123456").result
        = Except.ok false) := by
  intro h
  have h0 : (sampleAccount.login ⟨200, []⟩ ⟨200, []⟩ ⟨200, []⟩ "123456").result
      = Except.error (PyExn.keyError "accountStatus") := rfl
  rw [h0] at h
  exact Except.noConfusion h

/-- C3 (amended): only step 2 treats a missing required field like a non-200
response.  On a 200 step-1 response, a missing accountStatus field raises
KeyError, as does a missing authenticationMethod when accountStatus is ACTIVE;
on a 200 step-2 response, a missing challengeId makes `login()` return `False`
with `logged` false and no exception (the step-3 token field is never reached:
the NameError of line 115 fires first). -/
theorem C3_amended (a : DysonAccount) (r1 r2 r3 : Response) (otp : String)
    (h1 : r1.status = 200) :
    (jsonGet r1.json "accountStatus" = none →
      (a.login r1 r2 r3 otp).result = Except.error (PyExn.keyError "accountStatus")) ∧
    (jsonGet r1.json "accountStatus" = some "ACTIVE" →
      jsonGet r1.json "authenticationMethod" = none →
      (a.login r1 r2 r3 otp).result = Except.error (PyExn.keyError "authenticationMethod")) ∧
    (jsonGet r1.json "accountStatus" = some "ACTIVE" →
      jsonGet r1.json "authenticationMethod" = some "EMAIL_PWD_2FA" →
      r2.status = 200 → jsonGet r2.json "challengeId" = none →
      (a.login r1 r2 r3 otp).result = Except.ok false ∧
      (a.login r1 r2 r3 otp).state.logged = false) := by
  refine ⟨?_, ?_, ?_⟩
  · intro hk
    simp [DysonAccount.login, h1, hk]
  · intro hs hk
    simp [DysonAccount.login, h1, hs, hk]
  · intro hs hm h2 hk
    constructor <;> simp [DysonAccount.login, h1, hs, hm, h2, hk]

/-- C3 amended, witnessed at a concrete input: a missing challengeId on a 200
step-2 response yields a plain `False` return. -/
theorem C3_amended_witness :
    (sampleAccount.login okResp1 ⟨200, []⟩ ⟨200, []⟩ "123456").result
      = Except.ok false ∧
    (sampleAccount.login okResp1 ⟨200, []⟩ ⟨200, []⟩ "123456").state.logged = false :=
  (C3_amended sampleAccount okResp1 ⟨200, []⟩ ⟨200, []⟩ "123456" rfl).2.2 rfl rfl rfl rfl

/-- C4: a 200 step-1 response reporting an accountStatus other than ACTIVE, or
an ACTIVE account with an authenticationMethod other than EMAIL_PWD_2FA, makes
`login()` return `False` with `logged` false, after issuing only the step-1
request: no step-2 or step-3 request is sent and the OTP prompt never runs. -/
theorem C4_confirmed (a : DysonAccount) (r1 r2 r3 : Response) (otp s : String)
    (h1 : r1.status = 200)
    (hs : jsonGet r1.json "accountStatus" = some s)
    (hbad : s ≠ "ACTIVE" ∨
      ∃ m, jsonGet r1.json "authenticationMethod" = some m ∧ m ≠ "EMAIL_PWD_2FA") :
    (a.login r1 r2 r3 otp).result = Except.ok false ∧
    (a.login r1 r2 r3 otp).state.logged = false ∧
    (a.login r1 r2 r3 otp).events =
      [Event.request ⟨Method.post, userstatusUrl a.country, [("email", a.email)]⟩] := by
  by_cases hA : s = "ACTIVE"
  · subst hA
    rcases hbad with hne | ⟨m, hm, hmne⟩
    · exact absurd rfl hne
    · refine ⟨?_, ?_, ?_⟩ <;> simp [DysonAccount.login, h1, hs, hm, hmne]
  · refine ⟨?_, ?_, ?_⟩ <;> simp [DysonAccount.login, h1, hs, hA]

/-- C4 witnessed at a concrete input: a LOCKED account aborts after step 1. -/
theorem C4_witness :
    (sampleAccount.login ⟨200, [("accountStatus", "LOCKED")]⟩ okResp2 ⟨200, []⟩
        "123456").result = Except.ok false ∧
    (sampleAccount.login ⟨200, [("accountStatus", "LOCKED")]⟩ okResp2 ⟨200, []⟩
        "123456").state.logged = false ∧
    (sampleAccount.login ⟨200, [("accountStatus", "LOCKED")]⟩ okResp2 ⟨200, []⟩
        "123456").events =
      [Event.request ⟨Method.post, userstatusUrl "US", [("email", "user@example.com")]⟩] :=
  C4_confirmed sampleAccount ⟨200, [("accountStatus", "LOCKED")]⟩ okResp2 ⟨200, []⟩
    "123456" "LOCKED" rfl rfl (Or.inl (by decide))

/-- C5: calling `devices()` while `logged` is false raises
DysonNotLoggedException, issues no manifest request, and returns no list. -/
theorem C5_confirmed {D : Type} (ie ihd : D → Bool) (a : DysonAccount) (m : List D)
    (h : a.logged = false) :
    (DysonAccount.devices ie ihd a m).result = Except.error PyExn.dysonNotLogged ∧
    (DysonAccount.devices ie ihd a m).events = [] := by
  unfold DysonAccount.devices
  rw [h]
  exact ⟨rfl, rfl⟩

/-- C5 witnessed at a concrete input: a fresh account is not logged in. -/
theorem C5_witness :
    (DysonAccount.devices (fun _ : Nat => false) (fun _ => false) sampleAccount
        [0, 1]).result = Except.error PyExn.dysonNotLogged ∧
    (DysonAccount.devices (fun _ : Nat => false) (fun _ => false) sampleAccount
        [0, 1]).events = [] :=
  C5_confirmed _ _ _ _ rfl

/-- C6: with `logged` true, `devices()` returns the manifest records mapped in
order through the classifier (one output per record, order preserved), and the
classifier tests the vacuum predicate first, the heating predicate second, and
defaults to the generic cool-link class: in particular a record satisfying
both predicates is classified as a vacuum device. -/
theorem C6_confirmed {D : Type} (ie ihd : D → Bool) (a : DysonAccount) (m : List D)
    (h : a.logged = true) :
    (DysonAccount.devices ie ihd a m).result = Except.ok (m.map (classifyDevice ie ihd)) ∧
    (m.map (classifyDevice ie ihd)).length = m.length ∧
    (∀ d, ie d = true → classifyDevice ie ihd d = DysonDevice.eye360 d) ∧
    (∀ d, ie d = false → ihd d = true → classifyDevice ie ihd d = DysonDevice.hotCool d) ∧
    (∀ d, ie d = false → ihd d = false → classifyDevice ie ihd d = DysonDevice.coolLink d) := by
  refine ⟨?_, List.length_map _ _, ?_, ?_, ?_⟩
  · unfold DysonAccount.devices
    rw [h]
    rfl
  · intro d hd; simp [classifyDevice, hd]
  · intro d hd1 hd2; simp [classifyDevice, hd1, hd2]
  · intro d hd1 hd2; simp [classifyDevice, hd1, hd2]

/-- C6 witnessed on the three-record manifest of the spec: a vacuum record
(which here also satisfies the heating predicate), a heating record, and a
record matching neither, in that order. -/
theorem C6_witness :
    (DysonAccount.devices (fun n : Nat => n == 1) (fun n : Nat => n ≤ 2)
        (sampleAccount.use_authentication_token "tok") [1, 2, 3]).result
      = Except.ok [DysonDevice.eye360 1, DysonDevice.hotCool 2, DysonDevice.coolLink 3] :=
  ((C6_confirmed (fun n : Nat => n == 1) (fun n : Nat => n ≤ 2)
      (sampleAccount.use_authentication_token "tok") [1, 2, 3] rfl).1).trans (by rfl)

/-- C8: once step 1 succeeds, the second event of `login()` is the
challenge-initiation request: a POST whose body is exactly the email field and
whose URL carries the country code both as the country parameter and inside
the culture tag `en-` followed by that same country code. -/
theorem C8_confirmed (a : DysonAccount) (r1 r2 r3 : Response) (otp : String)
    (h1 : r1.status = 200)
    (hs : jsonGet r1.json "accountStatus" = some "ACTIVE")
    (hm : jsonGet r1.json "authenticationMethod" = some "EMAIL_PWD_2FA") :
    (a.login r1 r2 r3 otp).events.get? 1 =
      some (Event.request ⟨Method.post,
        "https://" ++ DYSON_API_URL ++ "/v3/userregistration/email/auth?country="
          ++ a.country ++ "&culture=en-" ++ a.country,
        [("email", a.email)]⟩) := by
  unfold DysonAccount.login
  simp only [hs, hm, h1]
  repeat' split
  all_goals simp_all [authUrl]

/-- C8 witnessed at a concrete input: the challenge request for country GB. -/
theorem C8_witness :
    ((DysonAccount.init "u@example.org" "pw" "GB").login okResp1 ⟨500, []⟩ ⟨200, []⟩
        "1").events.get? 1 =
      some (Event.request ⟨Method.post,
        "https://" ++ DYSON_API_URL ++ "/v3/userregistration/email/auth?country="
          ++ "GB" ++ "&culture=en-" ++ "GB",
        [("email", "u@example.org")]⟩) :=
  C8_confirmed (DysonAccount.init "u@example.org" "pw" "GB") okResp1 ⟨500, []⟩ ⟨200, []⟩
    "1" rfl rfl rfl

/-- C9: with `logged` true, `devices()` returns a list with exactly one entry
per manifest record; on an empty manifest it returns the empty list. -/
theorem C9_confirmed {D : Type} (ie ihd : D → Bool) (a : DysonAccount) (m : List D)
    (h : a.logged = true) :
    ∃ l : List (DysonDevice D),
      (DysonAccount.devices ie ihd a m).result = Except.ok l ∧ l.length = m.length := by
  refine ⟨m.map (classifyDevice ie ihd), ?_, List.length_map _ _⟩
  unfold DysonAccount.devices
  rw [h]
  rfl

/-- C9 witnessed at the empty manifest: the result is a list of length zero. -/
theorem C9_witness :
    ∃ l : List (DysonDevice Nat),
      (DysonAccount.devices (fun _ : Nat => false) (fun _ : Nat => false)
          (sampleAccount.use_authentication_token "tok") []).result = Except.ok l ∧
      l.length = ([] : List Nat).length :=
  C9_confirmed _ _ _ _ rfl

/-- C10: `devices()` never mutates the session: on both branches (list
returned or DysonNotLoggedException raised) the post-state, with all of its
fields (email, password, country, logged flag, headers), equals the
pre-state. -/
theorem C10_confirmed {D : Type} (ie ihd : D → Bool) (a : DysonAccount) (m : List D) :
    (DysonAccount.devices ie ihd a m).state = a :=
  devices_state_eq ie ihd a m

/-- C7 counterexample: the equivalence fails on a reachable state.  Install a
token via `use_authentication_token` (header set, `logged` true), then let a
login attempt fail at step 1: `logged` is reset to false but the Authorization
header is still installed. -/
theorem C7_counterexample :
    ¬ (∀ a : DysonAccount, Reachable a →
        (a.logged = true ↔ hasAuthHeader a = true)) := by
  intro hclaim
  have hreach : Reachable ((sampleAccount.use_authentication_token "tok").login
      ⟨500, []⟩ ⟨200, []⟩ ⟨200, []⟩ "1").state :=
    Reachable.loginStep _ _ _ _
      (Reachable.useToken _ (Reachable.init "user@example.com" "hunter2" "US"))
  have h2 := (hclaim _ hreach).mpr rfl
  have h3 : ((sampleAccount.use_authentication_token "tok").login
      ⟨500, []⟩ ⟨200, []⟩ ⟨200, []⟩ "1").state.logged = false := rfl
  rw [h3] at h2
  exact Bool.false_ne_true h2

/-- C7 (amended): only the forward direction of the invariant holds.  In every
reachable session state, if `logged` is true then an Authorization header is
installed; the converse fails because a failed login resets `logged` without
removing a previously installed header. -/
theorem C7_amended {a : DysonAccount} (h : Reachable a) :
    a.logged = true → hasAuthHeader a = true := by
  induction h with
  | init email password country =>
      intro hl
      exact absurd hl (by simp [DysonAccount.init])
  | useToken t hr iha =>
      intro _
      simp [DysonAccount.use_authentication_token, hasAuthHeader,
        jsonGet_headersSet_same]
  | loginStep r1 r2 r3 otp hr iha =>
      intro hl
      rcases login_state_cases _ r1 r2 r3 otp with hc | hc
      · rw [hc] at hl ⊢
        exact iha hl
      · rw [hc] at hl
        exact absurd hl (by simp)
  | devicesStep ie ihd m hr iha =>
      intro hl
      rw [devices_state_eq] at hl ⊢
      exact iha hl

/-- C7 amended, witnessed at a concrete reachable state with `logged` true. -/
theorem C7_amended_witness :
    hasAuthHeader (sampleAccount.use_authentication_token "tok") = true :=
  C7_amended
    (Reachable.useToken "tok" (Reachable.init "user@example.com" "hunter2" "US")) rfl

end Purecoollink
